import Mathlib

/-!
Verification of the Hedgewars front-end game-scheme editor page
(QTfrontend/pagescheme.cpp), as a shallow embedding in Lean 4.

A scheme is one row of a tabular model: column 0 holds the scheme name,
columns 1..24 hold the boolean game-modifier flags, and columns 25..39 hold
the bounded integer basic settings, following the column numbering of
PageScheme::setModel.  The page binds its widgets to these columns through a
data-widget mapper and offers new / copy / delete row operations plus an
enable/disable lock for the leading numberOfDefaultSchemes rows.

The backing model class (AmmoSchemeModel) is not part of the sources under
review; its row operations are modelled from the specification, as marked on
each such definition.
-/

namespace PageScheme

/-- One model cell (a QVariant of the table model): a string, a flag, or an
integer setting. -/
inductive Cell where
  | s (v : String)
  | b (v : Bool)
  | i (v : Int)
deriving DecidableEq, Repr

/-- A scheme row of the model: a list of cells indexed by the mapper columns
of PageScheme::setModel (40 columns in a well-formed row). -/
abbrev Scheme := List Cell

/-- The widgets of the page that PageScheme::setModel maps to model columns:
the name line edit, the 24 toggle-button game modifiers, and the 15 numeric
spin boxes of the basic settings. -/
inductive Control where
  | LE_name
  | TBW_mode_Forts
  | TBW_teamsDivide
  | TBW_solid
  | TBW_border
  | TBW_lowGravity
  | TBW_laserSight
  | TBW_invulnerable
  | TBW_resethealth
  | TBW_vampiric
  | TBW_karma
  | TBW_artillery
  | TBW_randomorder
  | TBW_king
  | TBW_placehog
  | TBW_sharedammo
  | TBW_disablegirders
  | TBW_disablelandobjects
  | TBW_aisurvival
  | TBW_infattack
  | TBW_resetweps
  | TBW_perhogammo
  | TBW_nowind
  | TBW_morewind
  | TBW_tagteam
  | SB_DamageModifier
  | SB_TurnTime
  | SB_InitHealth
  | SB_SuddenDeath
  | SB_WaterRise
  | SB_HealthDecrease
  | SB_RopeModifier
  | SB_CaseProb
  | SB_HealthCrates
  | SB_CrateHealth
  | SB_MinesTime
  | SB_Mines
  | SB_MineDuds
  | SB_Explosives
  | SB_GetAwayTime
deriving DecidableEq, Repr

/-- PageScheme::setModel: the model column each control is mapped to, exactly
the mapper->addMapping calls of the source. -/
def mapping : Control → Nat
  | .LE_name => 0
  | .TBW_mode_Forts => 1
  | .TBW_teamsDivide => 2
  | .TBW_solid => 3
  | .TBW_border => 4
  | .TBW_lowGravity => 5
  | .TBW_laserSight => 6
  | .TBW_invulnerable => 7
  | .TBW_resethealth => 8
  | .TBW_vampiric => 9
  | .TBW_karma => 10
  | .TBW_artillery => 11
  | .TBW_randomorder => 12
  | .TBW_king => 13
  | .TBW_placehog => 14
  | .TBW_sharedammo => 15
  | .TBW_disablegirders => 16
  | .TBW_disablelandobjects => 17
  | .TBW_aisurvival => 18
  | .TBW_infattack => 19
  | .TBW_resetweps => 20
  | .TBW_perhogammo => 21
  | .TBW_nowind => 22
  | .TBW_morewind => 23
  | .TBW_tagteam => 24
  | .SB_DamageModifier => 25
  | .SB_TurnTime => 26
  | .SB_InitHealth => 27
  | .SB_SuddenDeath => 28
  | .SB_CaseProb => 29
  | .SB_MinesTime => 30
  | .SB_Mines => 31
  | .SB_MineDuds => 32
  | .SB_Explosives => 33
  | .SB_HealthCrates => 34
  | .SB_CrateHealth => 35
  | .SB_WaterRise => 36
  | .SB_HealthDecrease => 37
  | .SB_RopeModifier => 38
  | .SB_GetAwayTime => 39

/-- The boolean game-modifier toggle buttons, in the order setModel maps
them (columns 1 up to 24). -/
def flagControls : List Control :=
  [.TBW_mode_Forts, .TBW_teamsDivide, .TBW_solid, .TBW_border, .TBW_lowGravity,
   .TBW_laserSight, .TBW_invulnerable, .TBW_resethealth, .TBW_vampiric,
   .TBW_karma, .TBW_artillery, .TBW_randomorder, .TBW_king, .TBW_placehog,
   .TBW_sharedammo, .TBW_disablegirders, .TBW_disablelandobjects,
   .TBW_aisurvival, .TBW_infattack, .TBW_resetweps, .TBW_perhogammo,
   .TBW_nowind, .TBW_morewind, .TBW_tagteam]

/-- Configuration of one numeric spin box as set in the PageScheme
constructor: range bounds, single step and initial value. -/
structure SpinBoxCfg where
  minVal : Int
  maxVal : Int
  singleStep : Int
  value : Int
deriving DecidableEq, Repr

/-- Damage Modifier spin box: setRange(10, 300), setValue(100), setSingleStep(25). -/
def SB_DamageModifier : SpinBoxCfg := ⟨10, 300, 25, 100⟩

/-- Turn Time spin box: setRange(1, 9999), setValue(45), setSingleStep(15). -/
def SB_TurnTime : SpinBoxCfg := ⟨1, 9999, 15, 45⟩

/-- Initial Health spin box: setRange(50, 200), setValue(100), setSingleStep(25). -/
def SB_InitHealth : SpinBoxCfg := ⟨50, 200, 25, 100⟩

/-- Sudden Death Timeout spin box: setRange(0, 50), setValue(15), setSingleStep(3). -/
def SB_SuddenDeath : SpinBoxCfg := ⟨0, 50, 3, 15⟩

/-- Sudden Death Water Rise spin box: setRange(0, 100), setValue(47), setSingleStep(5). -/
def SB_WaterRise : SpinBoxCfg := ⟨0, 100, 5, 47⟩

/-- Sudden Death Health Decrease spin box: setRange(0, 100), setValue(5), setSingleStep(1). -/
def SB_HealthDecrease : SpinBoxCfg := ⟨0, 100, 1, 5⟩

/-- Rope Length percent spin box: setRange(25, 999), setValue(100), setSingleStep(25). -/
def SB_RopeModifier : SpinBoxCfg := ⟨25, 999, 25, 100⟩

/-- Crate Drops frequency spin box: setRange(0, 9), setValue(5); no
setSingleStep call, so the widget keeps the plain step of 1. -/
def SB_CaseProb : SpinBoxCfg := ⟨0, 9, 1, 5⟩

/-- Health Crates percent spin box: setRange(0, 100), setValue(35), setSingleStep(5). -/
def SB_HealthCrates : SpinBoxCfg := ⟨0, 100, 5, 35⟩

/-- Health in Crates spin box: setRange(0, 200), setValue(25), setSingleStep(5). -/
def SB_CrateHealth : SpinBoxCfg := ⟨0, 200, 5, 25⟩

/-- Mines Time spin box: setRange(-1, 5), setValue(3), setSingleStep(1). -/
def SB_MinesTime : SpinBoxCfg := ⟨-1, 5, 1, 3⟩

/-- Mines count spin box: setRange(0, 80), setValue(0), setSingleStep(5). -/
def SB_Mines : SpinBoxCfg := ⟨0, 80, 5, 0⟩

/-- Dud Mines percent spin box: setRange(0, 100), setValue(0), setSingleStep(5). -/
def SB_MineDuds : SpinBoxCfg := ⟨0, 100, 5, 0⟩

/-- Explosives spin box: setRange(0, 40), setValue(0), setSingleStep(1). -/
def SB_Explosives : SpinBoxCfg := ⟨0, 40, 1, 0⟩

/-- Get Away Time percent spin box: setRange(0, 999), setValue(100), setSingleStep(25). -/
def SB_GetAwayTime : SpinBoxCfg := ⟨0, 999, 25, 100⟩

/-- The fifteen numeric controls of the Basic Settings group, in the order the
constructor creates them (which is also the order of the documented table). -/
def basicSettingsConfigs : List SpinBoxCfg :=
  [SB_DamageModifier, SB_TurnTime, SB_InitHealth, SB_SuddenDeath, SB_WaterRise,
   SB_HealthDecrease, SB_RopeModifier, SB_CaseProb, SB_HealthCrates,
   SB_CrateHealth, SB_MinesTime, SB_Mines, SB_MineDuds, SB_Explosives,
   SB_GetAwayTime]

/-- The documented parameter table of the specification (section 3, "Parameter
ranges"), written from the spec's words as (min, max, step, default) rows, in
the table's order.  CaseProb lists no step, i.e. the plain granularity 1. -/
def specParamTable : List SpinBoxCfg :=
  [⟨10, 300, 25, 100⟩, ⟨1, 9999, 15, 45⟩, ⟨50, 200, 25, 100⟩, ⟨0, 50, 3, 15⟩,
   ⟨0, 100, 5, 47⟩, ⟨0, 100, 1, 5⟩, ⟨25, 999, 25, 100⟩, ⟨0, 9, 1, 5⟩,
   ⟨0, 100, 5, 35⟩, ⟨0, 200, 5, 25⟩, ⟨-1, 5, 1, 3⟩, ⟨0, 80, 5, 0⟩,
   ⟨0, 100, 5, 0⟩, ⟨0, 40, 1, 0⟩, ⟨0, 999, 25, 100⟩]

/-- The association of each numeric control to its spin-box configuration. -/
def spinConfigOf : List (Control × SpinBoxCfg) :=
  [(.SB_DamageModifier, SB_DamageModifier), (.SB_TurnTime, SB_TurnTime),
   (.SB_InitHealth, SB_InitHealth), (.SB_SuddenDeath, SB_SuddenDeath),
   (.SB_WaterRise, SB_WaterRise), (.SB_HealthDecrease, SB_HealthDecrease),
   (.SB_RopeModifier, SB_RopeModifier), (.SB_CaseProb, SB_CaseProb),
   (.SB_HealthCrates, SB_HealthCrates), (.SB_CrateHealth, SB_CrateHealth),
   (.SB_MinesTime, SB_MinesTime), (.SB_Mines, SB_Mines),
   (.SB_MineDuds, SB_MineDuds), (.SB_Explosives, SB_Explosives),
   (.SB_GetAwayTime, SB_GetAwayTime)]

/-- Modelled from the spec: a spin box structurally clamps an entered value
into its configured range (spec section 7; the spin-box widget class itself is
framework code outside the reviewed sources). -/
def SpinBoxCfg.clampValue (cfg : SpinBoxCfg) (v : Int) : Int :=
  max cfg.minVal (min cfg.maxVal v)

/-- Modelled from the spec: the default-valued scheme row appended by "new"
(the AmmoSchemeModel default scheme is outside the reviewed sources).  Column 0
is the name, columns 1..24 the flags (off), columns 25..39 the documented
default settings in mapper-column order. -/
def defaultScheme : Scheme :=
  [Cell.s "New"] ++ List.replicate 24 (Cell.b false) ++
  [Cell.i 100, Cell.i 45, Cell.i 100, Cell.i 15, Cell.i 5, Cell.i 3, Cell.i 0,
   Cell.i 0, Cell.i 0, Cell.i 35, Cell.i 25, Cell.i 47, Cell.i 5, Cell.i 100,
   Cell.i 100]

/-- Modelled from the spec: the scheme table model (AmmoSchemeModel, outside
the reviewed sources): an ordered list of scheme rows, the leading
numberOfDefaultSchemes of which are the built-in schemes. -/
structure SchemeStore where
  numberOfDefaultSchemes : Nat
  schemes : List Scheme
deriving DecidableEq, Repr

/-- The model's rowCount. -/
def SchemeStore.rowCount (st : SchemeStore) : Nat := st.schemes.length

/-- Modelled from the spec: the model's insertRows (outside the reviewed
sources).  Called with row -1 ("new") it appends a default-valued row; called
with a row index ("copy") it appends a duplicate of that row at the table end
(spec 4.1: duplicate inserts a copy of the row immediately after the table
end, append semantics, not insert-before-self). -/
def SchemeStore.insertRow (st : SchemeStore) (row : Int) : SchemeStore :=
  if row = -1 then { st with schemes := st.schemes ++ [defaultScheme] }
  else
    { st with
        schemes := st.schemes ++ [st.schemes.getD row.toNat defaultScheme] }

/-- Modelled from the spec: the model's removeRows (outside the reviewed
sources).  Spec 4.1: remove deletes the row at the given index, shifting
subsequent rows, and fails as a no-op if the index is below
numberOfDefaultSchemes; an out-of-range index is likewise a no-op. -/
def SchemeStore.removeRow (st : SchemeStore) (row : Nat) : SchemeStore :=
  if row < st.numberOfDefaultSchemes then st
  else { st with schemes := st.schemes.eraseIdx row }

/-- Modelled from the spec: the model's cell write, set(index, field, value)
of spec 4.1; writes outside the table are no-ops of List.set. -/
def SchemeStore.setData (st : SchemeStore) (row col : Nat) (v : Cell) :
    SchemeStore :=
  { st with schemes := st.schemes.set row ((st.schemes.getD row []).set col v) }

/-- The editor page state the CRUD claims are about: the backing store and the
current combo-box selection (selectScheme currentIndex). -/
structure PageState where
  store : SchemeStore
  currentIndex : Nat
deriving DecidableEq, Repr

/-- PageScheme::newRow: model->insertRow(-1), then select the last row
(setCurrentIndex(rowCount - 1)). -/
def newRow (ps : PageState) : PageState :=
  let st := ps.store.insertRow (-1)
  { store := st, currentIndex := st.rowCount - 1 }

/-- PageScheme::copyRow: model->insertRow(currentIndex), then select the last
row (setCurrentIndex(rowCount - 1)). -/
def copyRow (ps : PageState) : PageState :=
  let st := ps.store.insertRow (ps.currentIndex : Int)
  { store := st, currentIndex := st.rowCount - 1 }

/-- PageScheme::deleteRow: a blocking confirmation dialog; on Ok the currently
selected row is removed from the model, otherwise nothing happens.  The
dialog's outcome is the confirmOk argument. -/
def deleteRow (ps : PageState) (confirmOk : Bool) : PageState :=
  if confirmOk then { ps with store := ps.store.removeRow ps.currentIndex }
  else ps

/-- Modelled from the spec: the live two-way binding of the data-widget mapper
(spec 4.2: edits write immediately into the bound row, no separate commit
step; the mapper class is framework code outside the reviewed sources).
Editing control ctl to value v writes v into column mapping ctl of the
currently selected row. -/
def editControl (ps : PageState) (ctl : Control) (v : Cell) : PageState :=
  { ps with store := ps.store.setData ps.currentIndex (mapping ctl) v }

/-- Enabled/disabled state of the page widgets the selection logic concerns:
the two settings group boxes, the name field, and the three CRUD buttons. -/
structure UIEnabled where
  gbGameModes : Bool
  gbBasicSettings : Bool
  LE_name : Bool
  BtnCopy : Bool
  BtnNew : Bool
  BtnDelete : Bool
deriving DecidableEq, Repr

/-- The page right after the constructor: every widget is created enabled. -/
def initUI : UIEnabled := ⟨true, true, true, true, true, true⟩

/-- PageScheme::schemeSelected(n): with c the model's numberOfDefaultSchemes,
enables the Game Modifiers box, the Basic Settings box and the name field
exactly when n >= c; no other widget is touched. -/
def schemeSelected (c : Int) (n : Int) (ui : UIEnabled) : UIEnabled :=
  { ui with
      gbGameModes := decide (n ≥ c)
      gbBasicSettings := decide (n ≥ c)
      LE_name := decide (n ≥ c) }

/-- The custom scheme of the spec's concrete scenario: a row named MyScheme
whose Damage Modifier (column 25) is 150. -/
def myScheme : Scheme := (defaultScheme.set 0 (Cell.s "MyScheme")).set 25 (Cell.i 150)

/-- The spec's concrete scenario: two default rows plus the custom row, with
the custom row (index 2) selected. -/
def scenarioState : PageState :=
  ⟨⟨2, [defaultScheme, defaultScheme, myScheme]⟩, 2⟩

/-- The same table with the first default row (index 0) selected. -/
def scenarioStateDefaultSel : PageState :=
  ⟨⟨2, [defaultScheme, defaultScheme, myScheme]⟩, 0⟩

/-- C1: deleteRow invoked while a row with index below numberOfDefaultSchemes
is selected is a no-op on the table, whatever the dialog outcome: default rows
are never removed through the editor (the store rejects the removal). -/
theorem deleteRow_default_row_noop (ps : PageState) (confirmOk : Bool)
    (h : ps.currentIndex < ps.store.numberOfDefaultSchemes) :
    (deleteRow ps confirmOk).store.schemes = ps.store.schemes := by
  unfold deleteRow SchemeStore.removeRow
  cases confirmOk <;> simp [h]

/-- Witness for C1: in the concrete scenario table with default row 0
selected, a confirmed delete leaves the rows untouched. -/
theorem deleteRow_default_row_noop_witness :
    (deleteRow scenarioStateDefaultSel true).store.schemes
      = [defaultScheme, defaultScheme, myScheme] :=
  deleteRow_default_row_noop scenarioStateDefaultSel true (by decide)

/-- C3: after schemeSelected n, the Game Modifiers box, the Basic Settings box
and the name field are enabled exactly when n is at least
numberOfDefaultSchemes. -/
theorem schemeSelected_enables_iff (c n : Int) (ui : UIEnabled) :
    ((schemeSelected c n ui).gbGameModes = true ↔ c ≤ n)
    ∧ ((schemeSelected c n ui).gbBasicSettings = true ↔ c ≤ n)
    ∧ ((schemeSelected c n ui).LE_name = true ↔ c ≤ n) := by
  simp [schemeSelected, ge_iff_le]

/-- C4 counterexample: setModel binds 24 boolean flag toggles, not 25. -/
theorem flagControls_count_not_25 : ¬ flagControls.length = 25 := by decide

/-- C4 amended: the scheme record has exactly 24 order-significant boolean
flag toggles, bound in mapping order to the 24 consecutive model columns
1..24, each toggle to its own column. -/
theorem flagControls_bind_24_consecutive_columns :
    flagControls.length = 24 ∧ flagControls.map mapping = List.range' 1 24 := by
  exact ⟨rfl, rfl⟩

/-- C6: deleteRow followed by cancellation of the confirmation dialog leaves
the page state, hence rowCount and every field value of every row,
unchanged. -/
theorem deleteRow_cancel_noop (ps : PageState) : deleteRow ps false = ps := rfl

/-- C2: with a row selected in a non-empty table, copyRow appends a copy of
the selected row's values at the table end (after the last row, not before the
selected one), and the new last row becomes the selected row. -/
theorem copyRow_appends_copy_and_selects_it (ps : PageState)
    (h : ps.currentIndex < ps.store.rowCount) :
    (copyRow ps).store.schemes
        = ps.store.schemes ++ [ps.store.schemes.getD ps.currentIndex defaultScheme]
    ∧ (copyRow ps).store.rowCount = ps.store.rowCount + 1
    ∧ (copyRow ps).currentIndex = ps.store.rowCount
    ∧ (copyRow ps).store.schemes.getD (copyRow ps).currentIndex defaultScheme
        = ps.store.schemes.getD ps.currentIndex defaultScheme := by
  have hne : (ps.currentIndex : Int) ≠ -1 := by omega
  unfold copyRow SchemeStore.insertRow SchemeStore.rowCount
  simp only [if_neg hne, Int.toNat_natCast, List.length_append,
    List.length_cons, List.length_nil, Nat.add_sub_cancel]
  refine ⟨trivial, trivial, trivial, ?_⟩
  simp [List.getD_eq_getElem?_getD, List.getElem?_concat_length]

/-- Witness for C2, the spec's concrete scenario: two default rows plus the
custom MyScheme row, index 2 selected; after copyRow the table has 4 rows, the
selection is index 3, and row 3 equals the MyScheme row (Damage Modifier
150). -/
theorem copyRow_appends_copy_and_selects_it_witness :
    (copyRow scenarioState).store.rowCount = 4
    ∧ (copyRow scenarioState).currentIndex = 3
    ∧ (copyRow scenarioState).store.schemes.getD 3 defaultScheme = myScheme := by
  have h := copyRow_appends_copy_and_selects_it scenarioState (by decide)
  exact ⟨h.2.1, h.2.2.1, by rw [show (3 : Nat) = (copyRow scenarioState).currentIndex from h.2.2.1.symm]; exact h.2.2.2⟩

/-- C5 counterexample: with the default row 0 selected in the 3-row scenario
table, deleteRow confirmed with Ok leaves rowCount at 3, not 2: the claim
fails on default-row selections, which the store refuses to remove. -/
theorem deleteRow_ok_default_selected_keeps_rowCount :
    ¬ ((deleteRow scenarioStateDefaultSel true).store.rowCount
        = scenarioStateDefaultSel.store.rowCount - 1) := by
  decide

/-- C5 amended: with a selected non-default row (numberOfDefaultSchemes <=
index < rowCount), deleteRow followed by Ok removes exactly the selected row:
rowCount drops by one, rows before it are unchanged, and each subsequent row
shifts down by one. -/
theorem deleteRow_ok_removes_selected_row (ps : PageState)
    (hc : ps.store.numberOfDefaultSchemes ≤ ps.currentIndex)
    (hr : ps.currentIndex < ps.store.rowCount) :
    (deleteRow ps true).store.rowCount = ps.store.rowCount - 1
    ∧ (∀ j, j < ps.currentIndex →
        (deleteRow ps true).store.schemes.getD j defaultScheme
          = ps.store.schemes.getD j defaultScheme)
    ∧ (∀ j, ps.currentIndex ≤ j →
        (deleteRow ps true).store.schemes.getD j defaultScheme
          = ps.store.schemes.getD (j + 1) defaultScheme) := by
  have hnotlt : ¬ ps.currentIndex < ps.store.numberOfDefaultSchemes :=
    Nat.not_lt.mpr hc
  unfold deleteRow SchemeStore.removeRow SchemeStore.rowCount at *
  simp only [if_pos rfl, if_neg hnotlt]
  refine ⟨?_, ?_, ?_⟩
  · simp [List.length_eraseIdx, hr]
  · intro j hj
    simp [List.getD_eq_getElem?_getD, List.getElem?_eraseIdx, hj]
  · intro j hj
    simp [List.getD_eq_getElem?_getD, List.getElem?_eraseIdx, Nat.not_lt.mpr hj]

/-- Witness for C5 amended: deleting the selected custom row (index 2) of the
3-row scenario table with Ok leaves 2 rows. -/
theorem deleteRow_ok_removes_selected_row_witness :
    (deleteRow scenarioState true).store.rowCount = 2 :=
  (deleteRow_ok_removes_selected_row scenarioState (by decide) (by decide)).1

/-- C7: the fifteen numeric field controls are configured exactly as the
spec's parameter table documents (range, step granularity, default value), and
a clamped entry always lands inside the configured range, so no out-of-range
value can be entered. -/
theorem spinBox_configs_match_spec (cfg : SpinBoxCfg)
    (h : cfg ∈ basicSettingsConfigs) (v : Int) :
    basicSettingsConfigs = specParamTable
    ∧ cfg.minVal ≤ cfg.clampValue v ∧ cfg.clampValue v ≤ cfg.maxVal := by
  have hminmax : cfg.minVal ≤ cfg.maxVal := by
    fin_cases h <;> decide
  exact ⟨rfl, le_max_left _ _, max_le hminmax (min_le_left _ _)⟩

/-- Witness for C7: the Damage Modifier control matches the documented table
and clamps an entry of 1000 into its range 10..300. -/
theorem spinBox_configs_match_spec_witness :
    basicSettingsConfigs = specParamTable
    ∧ SB_DamageModifier.minVal ≤ SB_DamageModifier.clampValue 1000
    ∧ SB_DamageModifier.clampValue 1000 ≤ SB_DamageModifier.maxVal :=
  spinBox_configs_match_spec SB_DamageModifier (by decide) 1000

/-- C8: newRow appends the default-valued row (each numeric field at its
documented default), the appended row becomes the selected row, and the
selection is editable: its index is at least numberOfDefaultSchemes, given
that the table holds at least the default rows. -/
theorem newRow_appends_default_and_selects (ps : PageState)
    (h : ps.store.numberOfDefaultSchemes ≤ ps.store.rowCount) :
    (newRow ps).store.schemes = ps.store.schemes ++ [defaultScheme]
    ∧ (newRow ps).currentIndex = ps.store.rowCount
    ∧ (newRow ps).store.schemes[(newRow ps).currentIndex]? = some defaultScheme
    ∧ ps.store.numberOfDefaultSchemes ≤ (newRow ps).currentIndex
    ∧ (∀ p ∈ spinConfigOf,
        defaultScheme.getD (mapping p.1) (Cell.i 0) = Cell.i p.2.value) := by
  have h2 : ps.store.numberOfDefaultSchemes ≤ ps.store.schemes.length := h
  refine ⟨?_, ?_, ?_, ?_, by decide⟩
  · simp [newRow, SchemeStore.insertRow]
  · simp [newRow, SchemeStore.insertRow, SchemeStore.rowCount]
  · simp [newRow, SchemeStore.insertRow, SchemeStore.rowCount,
      List.getElem?_concat_length]
  · simp [newRow, SchemeStore.insertRow, SchemeStore.rowCount]
    omega

/-- Witness for C8: on the 3-row scenario table, newRow yields the 4-row table
ending in the default scheme, with index 3 selected and editable. -/
theorem newRow_appends_default_and_selects_witness :
    (newRow scenarioState).store.schemes
        = [defaultScheme, defaultScheme, myScheme, defaultScheme]
    ∧ (newRow scenarioState).currentIndex = 3 :=
  ⟨(newRow_appends_default_and_selects scenarioState (by decide)).1,
   (newRow_appends_default_and_selects scenarioState (by decide)).2.1⟩

/-- C9: editing a bound control while an editable row is selected writes the
value immediately into that row's mapped column of the store; every other
column of that row and every cell of every other row are unchanged. -/
theorem editControl_updates_only_bound_cell (ps : PageState) (ctl : Control)
    (v : Cell)
    (hc : ps.store.numberOfDefaultSchemes ≤ ps.currentIndex)
    (hr : ps.currentIndex < ps.store.rowCount)
    (hw : mapping ctl < (ps.store.schemes.getD ps.currentIndex []).length) :
    ((editControl ps ctl v).store.schemes.getD ps.currentIndex [])[mapping ctl]?
        = some v
    ∧ (∀ col, col ≠ mapping ctl →
        ((editControl ps ctl v).store.schemes.getD ps.currentIndex [])[col]?
          = (ps.store.schemes.getD ps.currentIndex [])[col]?)
    ∧ (∀ j, j ≠ ps.currentIndex →
        (editControl ps ctl v).store.schemes[j]? = ps.store.schemes[j]?) := by
  unfold editControl SchemeStore.setData SchemeStore.rowCount at *
  have hrow :
      ((ps.store.schemes.set ps.currentIndex
          ((ps.store.schemes.getD ps.currentIndex []).set (mapping ctl) v)).getD
            ps.currentIndex [])
        = (ps.store.schemes.getD ps.currentIndex []).set (mapping ctl) v := by
    simp [List.getD_eq_getElem?_getD, List.getElem?_set_self hr]
  refine ⟨?_, ?_, ?_⟩
  · simp only [hrow]
    exact List.getElem?_set_self hw
  · intro col hcol
    simp only [hrow]
    exact List.getElem?_set_ne (fun e => hcol e.symm)
  · intro j hj
    exact List.getElem?_set_ne (fun e => hj e.symm)

/-- Witness for C9: on the scenario table with the editable MyScheme row
(index 2) selected, editing the Turn Time spin box to 60 immediately puts 60
into column 26 of row 2. -/
theorem editControl_updates_only_bound_cell_witness :
    ((editControl scenarioState Control.SB_TurnTime (Cell.i 60)).store.schemes.getD
        2 [])[26]? = some (Cell.i 60) :=
  (editControl_updates_only_bound_cell scenarioState Control.SB_TurnTime
    (Cell.i 60) (by decide) (by decide) (by decide)).1

/-- C10: a selection change toggles only the two settings group boxes and the
name field, never the Copy, New and Delete buttons; after any sequence of
selection events from the constructor state those three buttons are still
enabled, so deleteRow, copyRow and newRow stay invokable even while a default
row is selected. -/
theorem selection_never_disables_buttons (c n : Int) (ui : UIEnabled)
    (sels : List Int) :
    (schemeSelected c n ui).BtnCopy = ui.BtnCopy
    ∧ (schemeSelected c n ui).BtnNew = ui.BtnNew
    ∧ (schemeSelected c n ui).BtnDelete = ui.BtnDelete
    ∧ (sels.foldl (fun u m => schemeSelected c m u) initUI).BtnCopy = true
    ∧ (sels.foldl (fun u m => schemeSelected c m u) initUI).BtnNew = true
    ∧ (sels.foldl (fun u m => schemeSelected c m u) initUI).BtnDelete = true := by
  have key : ∀ (l : List Int) (u : UIEnabled),
      (l.foldl (fun a m => schemeSelected c m a) u).BtnCopy = u.BtnCopy
      ∧ (l.foldl (fun a m => schemeSelected c m a) u).BtnNew = u.BtnNew
      ∧ (l.foldl (fun a m => schemeSelected c m a) u).BtnDelete = u.BtnDelete := by
    intro l
    induction l with
    | nil => intro u; exact ⟨rfl, rfl, rfl⟩
    | cons m rest ih =>
        intro u
        exact ⟨(ih (schemeSelected c m u)).1, (ih (schemeSelected c m u)).2.1,
          (ih (schemeSelected c m u)).2.2⟩
  exact ⟨rfl, rfl, rfl, (key sels initUI).1, (key sels initUI).2.1,
    (key sels initUI).2.2⟩

end PageScheme
